import Mathlib

/-!
Verification development for the triangle-agents repository.

The repository has two parallel implementations of the same design: a C file
(triangle_agents.c) and a C++ file (the unnamed translation unit).  Both hold
a typed key-value store (the "blackboard"), an angle-completion agent, a
right-angle classification agent, and a pipeline running the two in sequence.

Modelling choices:
  * C `double` arithmetic is embedded as exact rational arithmetic (ℚ).  All
    values the program manipulates in the claims (90, 45, 60, 0, 180, 0.001)
    are dyadic rationals on which IEEE double arithmetic is exact, so the
    embedding agrees with the machine arithmetic at every concrete input that
    appears, and "within tolerance" statements become exact equalities.
  * The C store is a list of entries scanned front to back, exactly as the
    array in `sc_memory_context` is.  `sc_memory_get` returning NULL is
    embedded as `Except.error StoreError.keyNotFound`; the `exit(EXIT_FAILURE)`
    on a tag mismatch is `Except.error StoreError.typeMismatch`.
  * The C++ store is a pair of association lists mirroring the two `std::map`
    fields `data` and `types`.  `std::map::operator[]` (which default-inserts
    on a missent key) is embedded as `mapIndex`, which returns the default and
    the possibly extended map.  The nullptr a `data[addr]` lookup can produce
    is embedded as `Option` (`none` = nullptr).
  * In-place mutation of the Triangle through the pointer returned by `get`
    is embedded as an update of the data stored at the key the pointer was
    obtained from, with the type tag untouched (`sc_update_data`).
  * Agent executions whose behavior the source leaves undefined
    (dereferencing the NULL from a failed C get or a null C++ data pointer,
    or reinterpreting memory of a different type) are embedded as `none`;
    theorems hypothesize a well-formed store, which every caller in the
    repository establishes.  A C++ exception escaping an agent is a defined
    outcome and is embedded as `CppExec.thrown` with the store state at the
    throw.
-/

/-- One interior angle: a value and a flag telling whether it is known.
Mirrors `struct angle`  / `struct Angle` of the source. -/
structure Angle where
  value : ℚ
  is_known : Bool
deriving DecidableEq, Repr

/-- A triangle is exactly three positionally ordered angles, mirroring
`angle angles[3]` of the source. -/
structure Triangle where
  a0 : Angle
  a1 : Angle
  a2 : Angle
deriving DecidableEq, Repr

/-- Positional access to the three angles, used to state quantified claims. -/
def angleAt (t : Triangle) (i : Fin 3) : Angle :=
  if i.val = 0 then t.a0 else if i.val = 1 then t.a1 else t.a2

/-- Number of angles whose `is_known` flag is false, as counted by the first
loop of `calculate_angles_agent_execute`. -/
def unknownCount (t : Triangle) : Nat :=
  (if t.a0.is_known then 0 else 1) + (if t.a1.is_known then 0 else 1)
    + (if t.a2.is_known then 0 else 1)

/-- Sum of the values of the known angles, as accumulated by the first loop of
`calculate_angles_agent_execute`. -/
def sumKnown (t : Triangle) : ℚ :=
  (if t.a0.is_known then t.a0.value else 0)
    + (if t.a1.is_known then t.a1.value else 0)
    + (if t.a2.is_known then t.a2.value else 0)

/-- Sum of all three angle values, used to state the 180-degree invariant. -/
def sumValues (t : Triangle) : ℚ :=
  t.a0.value + t.a1.value + t.a2.value

/-- Whether every angle of the triangle is marked known. -/
def allKnown (t : Triangle) : Bool :=
  t.a0.is_known && t.a1.is_known && t.a2.is_known

/-- The angle-completion computation of `calculate_angles_agent_execute` /
`CalculateAnglesAgent::execute` on the triangle it read: when exactly one
angle is unknown, the second loop finds the first unknown angle and sets its
value to `180.0 - sum_known` and its flag to known, returning OK; otherwise
the function falls through to the error return.  `none` is the error path. -/
def calcAngles (t : Triangle) : Option Triangle :=
  if unknownCount t = 1 then
    if t.a0.is_known then
      if t.a1.is_known then
        if t.a2.is_known then none
        else some { t with a2 := ⟨180 - sumKnown t, true⟩ }
      else some { t with a1 := ⟨180 - sumKnown t, true⟩ }
    else some { t with a0 := ⟨180 - sumKnown t, true⟩ }
  else none

/-- The per-angle test of `check_right_angle_agent_execute`:
`angle.is_known && fabs(angle.value - 90.0) < 0.001`. -/
def isNear90 (a : Angle) : Bool :=
  a.is_known && decide (|a.value - 90| < 1 / 1000)

/-- The boolean `check_right_angle_agent_execute` stores under
`is_right_triangle`: the loop returns true on the first angle passing
`isNear90` and false when none does. -/
def checkRight (t : Triangle) : Bool :=
  isNear90 t.a0 || isNear90 t.a1 || isNear90 t.a2

/-- Payloads storable in the C store.  The C store itself is untyped
(`void*` plus a caller-chosen tag string); this closed datatype lists the
payload shapes the program actually stores, so that the model can speak about
what a returned pointer points at. -/
inductive CVal where
  | tri (t : Triangle)
  | intv (n : Int)
  | rules
deriving DecidableEq, Repr

/-- One entry of `sc_memory_context`: address string, payload, tag string. -/
structure SCEntry where
  addr : String
  data : CVal
  type : String
deriving DecidableEq, Repr

/-- The C store: the entry array of `sc_memory_context`, scanned in order. -/
abbrev SCMem := List SCEntry

/-- Error outcomes of a store lookup.  For the C `sc_memory_get`,
`keyNotFound` embeds the NULL return and `typeMismatch` the
`exit(EXIT_FAILURE)`; the C++ `get` only ever reports `typeMismatch`. -/
inductive StoreError where
  | keyNotFound
  | typeMismatch
deriving DecidableEq, Repr

/-- `sc_memory_store`: updates the data and tag of the first entry with the
given address in place, or appends a new entry when none matches. -/
def sc_memory_store (ctx : SCMem) (addr : String) (data : CVal) (ty : String) : SCMem :=
  match ctx with
  | [] => [⟨addr, data, ty⟩]
  | e :: rest =>
      if e.addr = addr then ⟨e.addr, data, ty⟩ :: rest
      else e :: sc_memory_store rest addr data ty

/-- `sc_memory_get`: scans for the first entry with the given address; a tag
mismatch there is fatal (`exit`), embedded as `typeMismatch`; success returns
the payload; falling off the end returns NULL, embedded as `keyNotFound`. -/
def sc_memory_get (ctx : SCMem) (addr : String) (ty : String) : Except StoreError CVal :=
  match ctx with
  | [] => .error .keyNotFound
  | e :: rest =>
      if e.addr = addr then
        if e.type = ty then .ok e.data else .error .typeMismatch
      else sc_memory_get rest addr ty

/-- Mutation through the pointer `sc_memory_get` returned: the data of the
first entry at the address is replaced, the tag is untouched, nothing is
inserted.  This is how the agents write the completed Triangle back. -/
def sc_update_data (ctx : SCMem) (addr : String) (v : CVal) : SCMem :=
  match ctx with
  | [] => []
  | e :: rest =>
      if e.addr = addr then ⟨e.addr, v, e.type⟩ :: rest
      else e :: sc_update_data rest addr v

/-- First entry stored at an address, a specification-side observer of the
store used to state the lookup contract. -/
def sc_lookup (ctx : SCMem) (addr : String) : Option SCEntry :=
  match ctx with
  | [] => none
  | e :: rest => if e.addr = addr then some e else sc_lookup rest addr

/-- Result values of the C agents, mirroring `sc_result`. -/
inductive sc_result where
  | ok
  | error
deriving DecidableEq, Repr

/-- `calculate_angles_agent_execute`: reads the Triangle at `input_triangle`,
counts unknowns and sums knowns, fills the single unknown in place and
returns OK, or returns ERROR leaving the store untouched.  `none` embeds the
undefined executions (NULL dereference after a failed get, or memory of a
different shape behind the `triangle` tag). -/
def calculate_angles_agent_execute (ctx : SCMem) : Option (sc_result × SCMem) :=
  match sc_memory_get ctx "input_triangle" "triangle" with
  | .ok (CVal.tri t) =>
      match calcAngles t with
      | some t2 => some (.ok, sc_update_data ctx "input_triangle" (CVal.tri t2))
      | none => some (.error, ctx)
  | _ => none

/-- `check_right_angle_agent_execute`: reads the Triangle, stores 1 under
`is_right_triangle` (tag `int`) when some known angle is within 0.001 of 90
and 0 otherwise, and returns OK on both paths. -/
def check_right_angle_agent_execute (ctx : SCMem) : Option (sc_result × SCMem) :=
  match sc_memory_get ctx "input_triangle" "triangle" with
  | .ok (CVal.tri t) =>
      some (.ok,
        sc_memory_store ctx "is_right_triangle"
          (CVal.intv (if checkRight t then 1 else 0)) "int")
  | _ => none

/-- `triangle_processing_agent_execute`: runs angle completion, aborts with
ERROR on its failure, runs classification, aborts on its failure, then reads
the classification back (a NULL there would be dereferenced, hence `none`)
and returns OK. -/
def triangle_processing_agent_execute (ctx : SCMem) : Option (sc_result × SCMem) :=
  match calculate_angles_agent_execute ctx with
  | none => none
  | some (.error, ctx1) => some (.error, ctx1)
  | some (.ok, ctx1) =>
      match check_right_angle_agent_execute ctx1 with
      | none => none
      | some (.error, ctx2) => some (.error, ctx2)
      | some (.ok, ctx2) =>
          match sc_memory_get ctx2 "is_right_triangle" "int" with
          | .ok (CVal.intv _) => some (.ok, ctx2)
          | _ => none

/-- The closed set of semantic types the C++ store is used with:
`Triangle`, `bool`, and the rule-set map `std::map<std::string, std::string>`. -/
inductive Ty where
  | tTriangle
  | tBool
  | tRules
deriving DecidableEq

/-- The string `typeid(T).name()` records for each supported type in the C++
store.  Only distinctness and non-emptiness of these strings matter for any
property below, which every conforming C++ implementation guarantees for
distinct types. -/
def tyName : Ty → String
  | .tTriangle => "8Triangle"
  | .tBool => "b"
  | .tRules => "St3mapI7stringS_E"

/-- Payloads storable through the typed C++ interface. -/
inductive CppVal where
  | tri (t : Triangle)
  | boolv (b : Bool)
  | rules (r : List (String × String))
deriving DecidableEq

/-- The static type a payload is stored at, the `T` the `store` template
deduces from its argument. -/
def valTy : CppVal → Ty
  | .tri _ => .tTriangle
  | .boolv _ => .tBool
  | .rules _ => .tRules

/-- Lookup in an association list embedding a `std::map`: `find`-like access
that does not mutate. -/
def mapFind (m : List (String × α)) (k : String) : Option α :=
  match m with
  | [] => none
  | (k1, v) :: rest => if k1 = k then some v else mapFind rest k

/-- Keyed insertion embedding `std::map` assignment: replaces the value of an
existing key, otherwise adds the binding. -/
def mapInsert (m : List (String × α)) (k : String) (v : α) : List (String × α) :=
  match m with
  | [] => [(k, v)]
  | (k1, w) :: rest =>
      if k1 = k then (k1, v) :: rest else (k1, w) :: mapInsert rest k v

/-- Embedding of `std::map::operator[]`: returns the value bound at the key
and the map itself when the key is present, and otherwise inserts the given
default and returns it together with the extended map. -/
def mapIndex (m : List (String × α)) (k : String) (d : α) : α × List (String × α) :=
  match m with
  | [] => (d, [(k, d)])
  | (k1, w) :: rest =>
      if k1 = k then (w, (k1, w) :: rest)
      else
        let p := mapIndex rest k d
        (p.1, (k1, w) :: p.2)

/-- The C++ store `sc::MemoryContext`: the `data` map holds pointers (`none`
embeds a null pointer) and the `types` map holds tag strings. -/
structure MemoryContext where
  data : List (String × Option CppVal)
  types : List (String × String)
deriving DecidableEq

/-- `sc::MemoryContext::store`: writes the payload into `data[addr]` and the
tag `typeid(T).name()` into `types[addr]`. -/
def MemoryContext.store (m : MemoryContext) (addr : String) (v : CppVal) : MemoryContext :=
  { data := mapInsert m.data addr (some v),
    types := mapInsert m.types addr (tyName (valTy v)) }

/-- `sc::MemoryContext::get<T>`: evaluates `types[addr]` (default-inserting an
empty tag when the key is absent), throws a type-mismatch error when that tag
differs from `typeid(T).name()`, and otherwise returns `data[addr]` (again a
default-inserting access, whose default is a null pointer). -/
def MemoryContext.get (m : MemoryContext) (T : Ty) (addr : String) :
    Except StoreError (Option CppVal) × MemoryContext :=
  let p := mapIndex m.types addr ""
  if p.1 = tyName T then
    let q := mapIndex m.data addr none
    (Except.ok q.1, ⟨q.2, p.2⟩)
  else
    (Except.error StoreError.typeMismatch, ⟨m.data, p.2⟩)

/-- Mutation through the `Triangle*` a successful C++ `get` returned: the data
binding at the address the pointer was obtained from is replaced, the type map
untouched.  This is how `CalculateAnglesAgent::execute` writes the completed
Triangle back. -/
def MemoryContext.updateData (m : MemoryContext) (addr : String) (v : CppVal) : MemoryContext :=
  { data := mapInsert m.data addr (some v), types := m.types }

/-- Outcome of running a C++ agent member function: a normal return carrying
the `sc::Result` and the store state, or a `std::runtime_error` propagating
out of an uncaught `get`, carrying the store state at the throw. -/
inductive CppExec where
  | ret (r : sc_result) (m : MemoryContext)
  | thrown (m : MemoryContext)
deriving DecidableEq

/-- The store state an execution outcome left behind, whether it returned or
threw; used to state frame properties uniformly. -/
def CppExec.state : CppExec → MemoryContext
  | .ret _ m => m
  | .thrown m => m

/-- `CalculateAnglesAgent::execute`: retrieves the Triangle pointer, then the
(unused) rules pointer — each retrieval can throw, in source order — then
counts unknown angles and either fills the single unknown in place through
the Triangle pointer and returns Ok, or returns Error touching nothing
further.  `none` embeds the executions the source leaves undefined: the loop
dereferencing a null Triangle pointer or memory of another shape. -/
def CalculateAnglesAgent_execute (m : MemoryContext) : Option CppExec :=
  match m.get Ty.tTriangle "input_triangle" with
  | (Except.error _, m1) => some (CppExec.thrown m1)
  | (Except.ok p, m1) =>
      match m1.get Ty.tRules "rules_set" with
      | (Except.error _, m2) => some (CppExec.thrown m2)
      | (Except.ok _, m2) =>
          match p with
          | some (CppVal.tri t) =>
              match calcAngles t with
              | some t2 =>
                  some (CppExec.ret sc_result.ok
                    (m2.updateData "input_triangle" (CppVal.tri t2)))
              | none => some (CppExec.ret sc_result.error m2)
          | _ => none

/-- `CheckRightAngleAgent::execute`: retrieves the Triangle pointer and the
(unused) rules pointer — each retrieval can throw, in source order — then
stores the boolean saying whether some known angle is within 0.001 of 90
under the classification key and returns Ok on both loop exits. -/
def CheckRightAngleAgent_execute (m : MemoryContext) : Option CppExec :=
  match m.get Ty.tTriangle "input_triangle" with
  | (Except.error _, m1) => some (CppExec.thrown m1)
  | (Except.ok p, m1) =>
      match m1.get Ty.tRules "rules_set" with
      | (Except.error _, m2) => some (CppExec.thrown m2)
      | (Except.ok _, m2) =>
          match p with
          | some (CppVal.tri t) =>
              some (CppExec.ret sc_result.ok
                (m2.store "is_right_triangle" (CppVal.boolv (checkRight t))))
          | _ => none

/-- `TriangleProcessingAgent::execute`: runs angle completion, returning its
Error (or letting its exception propagate) without invoking classification;
then runs classification the same way; then retrieves the stored boolean,
whose pointer the final log dereferences (`none` embeds a null there), and
returns Ok. -/
def TriangleProcessingAgent_execute (m : MemoryContext) : Option CppExec :=
  match CalculateAnglesAgent_execute m with
  | none => none
  | some (CppExec.thrown m1) => some (CppExec.thrown m1)
  | some (CppExec.ret sc_result.error m1) => some (CppExec.ret sc_result.error m1)
  | some (CppExec.ret sc_result.ok m1) =>
      match CheckRightAngleAgent_execute m1 with
      | none => none
      | some (CppExec.thrown m2) => some (CppExec.thrown m2)
      | some (CppExec.ret sc_result.error m2) => some (CppExec.ret sc_result.error m2)
      | some (CppExec.ret sc_result.ok m2) =>
          match m2.get Ty.tBool "is_right_triangle" with
          | (Except.error _, m3) => some (CppExec.thrown m3)
          | (Except.ok p, m3) =>
              match p with
              | some (CppVal.boolv _) => some (CppExec.ret sc_result.ok m3)
              | _ => none

/-- Test fixture: the triangle of scenario A, angles 90 and 45 known. -/
def triW : Triangle := ⟨⟨90, true⟩, ⟨45, true⟩, ⟨0, false⟩⟩

/-- Test fixture: a store holding only the scenario-A triangle. -/
def ctxW : SCMem := [⟨"input_triangle", CVal.tri triW, "triangle"⟩]

/-- Test fixture: the degenerate triangle of scenario C, both known angles 90. -/
def tri9 : Triangle := ⟨⟨90, true⟩, ⟨90, true⟩, ⟨0, false⟩⟩

/-- Test fixture: a store holding only the scenario-C triangle. -/
def ctx9 : SCMem := [⟨"input_triangle", CVal.tri tri9, "triangle"⟩]

/-- Test fixture: a fully known triangle, used to exercise the failure path
of angle completion. -/
def triFull : Triangle := ⟨⟨90, true⟩, ⟨45, true⟩, ⟨45, true⟩⟩

/-- Test fixture: a store holding only the fully known triangle. -/
def ctxFull : SCMem := [⟨"input_triangle", CVal.tri triFull, "triangle"⟩]

/-- Test fixture: a triangle with no known angle, used to exercise the
classification of a store that was never completed. -/
def triU : Triangle := ⟨⟨0, false⟩, ⟨0, false⟩, ⟨0, false⟩⟩

/-- Test fixture: a store holding only the all-unknown triangle. -/
def ctxU : SCMem := [⟨"input_triangle", CVal.tri triU, "triangle"⟩]

/-- Test fixture: the store after classifying the all-unknown triangle. -/
def ctxU1 : SCMem :=
  [⟨"input_triangle", CVal.tri triU, "triangle"⟩,
   ⟨"is_right_triangle", CVal.intv 0, "int"⟩]

/-- Test fixture: the rule-set payload the C++ main stores. -/
def rulesW : CppVal := CppVal.rules [("right_angle_threshold", "90.0")]

/-- Test fixture: the C++ store populated the way the C++ main populates it,
holding the scenario-A triangle and the rule set. -/
def cppW : MemoryContext :=
  ((MemoryContext.mk [] []).store "input_triangle" (CppVal.tri triW)).store "rules_set" rulesW

/-- Test fixture: the C++ store holding the fully known triangle and rules. -/
def cppFull : MemoryContext :=
  ((MemoryContext.mk [] []).store "input_triangle" (CppVal.tri triFull)).store "rules_set" rulesW

/-- Test fixture: the C++ store holding the all-unknown triangle and rules. -/
def cppU : MemoryContext :=
  ((MemoryContext.mk [] []).store "input_triangle" (CppVal.tri triU)).store "rules_set" rulesW

/-- Test fixture: the C++ store holding the scenario-C triangle and rules. -/
def cpp9 : MemoryContext :=
  ((MemoryContext.mk [] []).store "input_triangle" (CppVal.tri tri9)).store "rules_set" rulesW

/-- Test fixture: a C++ store missing the rule-set entry, on which the agents
throw out of the rules retrieval. -/
def cppNoRules : MemoryContext :=
  (MemoryContext.mk [] []).store "input_triangle" (CppVal.tri triFull)

/-- Test fixture: the store state the throw on the rules-less store leaves
behind, the empty tag default-inserted into the type map. -/
def cppNoRulesThrown : MemoryContext :=
  ⟨cppNoRules.data, cppNoRules.types ++ [("rules_set", "")]⟩

/-! Helper lemmas about the two stores and the pure angle computations. -/

theorem sc_get_store_self (ctx : SCMem) (k ty : String) (v : CVal) :
    sc_memory_get (sc_memory_store ctx k v ty) k ty = Except.ok v := by
  induction ctx with
  | nil => simp [sc_memory_store, sc_memory_get]
  | cons e rest ih =>
      by_cases he : e.addr = k
      · simp [sc_memory_store, sc_memory_get, he]
      · simp [sc_memory_store, sc_memory_get, he, ih]

theorem sc_get_store_other (ctx : SCMem) (k1 k2 ty1 ty2 : String) (v : CVal)
    (hne : k1 ≠ k2) :
    sc_memory_get (sc_memory_store ctx k2 v ty2) k1 ty1 = sc_memory_get ctx k1 ty1 := by
  induction ctx with
  | nil =>
      have h2 : k2 ≠ k1 := Ne.symm hne
      simp [sc_memory_store, sc_memory_get, h2]
  | cons e rest ih =>
      have h2 : k2 ≠ k1 := Ne.symm hne
      by_cases he : e.addr = k2
      · simp [sc_memory_store, sc_memory_get, he, h2]
      · by_cases h1 : e.addr = k1
        · simp [sc_memory_store, sc_memory_get, he, h1, h2, hne]
        · simp [sc_memory_store, sc_memory_get, he, h1, ih]

theorem sc_store_idem (ctx : SCMem) (k ty : String) (v : CVal) :
    sc_memory_store (sc_memory_store ctx k v ty) k v ty = sc_memory_store ctx k v ty := by
  induction ctx with
  | nil => simp [sc_memory_store]
  | cons e rest ih =>
      by_cases he : e.addr = k
      · simp [sc_memory_store, he]
      · simp [sc_memory_store, he, ih]

theorem sc_get_update_data (ctx : SCMem) (k ty : String) (w v : CVal)
    (h : sc_memory_get ctx k ty = Except.ok w) :
    sc_memory_get (sc_update_data ctx k v) k ty = Except.ok v := by
  induction ctx with
  | nil => simp [sc_memory_get] at h
  | cons e rest ih =>
      by_cases he : e.addr = k
      · by_cases ht : e.type = ty
        · simp [sc_memory_get, sc_update_data, he, ht]
        · simp [sc_memory_get, he, ht] at h
      · simp [sc_memory_get, sc_update_data, he] at h ⊢
        exact ih h

theorem sc_get_eq_lookup (ctx : SCMem) (k ty : String) :
    sc_memory_get ctx k ty
      = match sc_lookup ctx k with
        | none => Except.error StoreError.keyNotFound
        | some e =>
            if e.type = ty then Except.ok e.data else Except.error StoreError.typeMismatch := by
  induction ctx with
  | nil => simp [sc_memory_get, sc_lookup]
  | cons e rest ih =>
      by_cases he : e.addr = k
      · simp [sc_memory_get, sc_lookup, he]
      · simp [sc_memory_get, sc_lookup, he, ih]

theorem mapFind_insert_self (m : List (String × α)) (k : String) (v : α) :
    mapFind (mapInsert m k v) k = some v := by
  induction m with
  | nil => simp [mapInsert, mapFind]
  | cons p rest ih =>
      obtain ⟨k1, w⟩ := p
      by_cases hk : k1 = k
      · simp [mapInsert, mapFind, hk]
      · simp [mapInsert, mapFind, hk, ih]

theorem mapIndex_found (m : List (String × α)) (k : String) (d v : α)
    (h : mapFind m k = some v) :
    mapIndex m k d = (v, m) := by
  induction m with
  | nil => simp [mapFind] at h
  | cons p rest ih =>
      obtain ⟨k1, w⟩ := p
      by_cases hk : k1 = k
      · simp [mapFind, hk] at h
        simp [mapIndex, hk, h]
      · simp [mapFind, hk] at h
        simp [mapIndex, hk, ih h]

theorem mapIndex_not_found (m : List (String × α)) (k : String) (d : α)
    (h : mapFind m k = none) :
    mapIndex m k d = (d, m ++ [(k, d)]) := by
  induction m with
  | nil => simp [mapIndex]
  | cons p rest ih =>
      obtain ⟨k1, w⟩ := p
      by_cases hk : k1 = k
      · simp [mapFind, hk] at h
      · simp [mapFind, hk] at h
        simp [mapIndex, hk, ih h]

theorem mapFind_append_self (m : List (String × α)) (k : String) (d : α)
    (h : mapFind m k = none) :
    mapFind (m ++ [(k, d)]) k = some d := by
  induction m with
  | nil => simp [mapFind]
  | cons p rest ih =>
      obtain ⟨k1, w⟩ := p
      by_cases hk : k1 = k
      · simp [mapFind, hk] at h
      · simp [mapFind, hk] at h ⊢
        exact ih h

theorem tyName_ne_empty (T : Ty) : tyName T ≠ "" := by
  cases T <;> decide

theorem mapFind_insert_other (m : List (String × α)) (k k2 : String) (v : α)
    (hne : k2 ≠ k) :
    mapFind (mapInsert m k v) k2 = mapFind m k2 := by
  induction m with
  | nil =>
      have h2 : k ≠ k2 := Ne.symm hne
      simp [mapInsert, mapFind, h2]
  | cons p rest ih =>
      obtain ⟨k1, w⟩ := p
      have h1 : k ≠ k2 := Ne.symm hne
      by_cases hk : k1 = k
      · simp [mapInsert, mapFind, hk, h1, hne]
      · by_cases h2 : k1 = k2
        · simp [mapInsert, mapFind, hk, h2, h1, hne]
        · simp [mapInsert, mapFind, hk, h2, ih]

theorem mapFind_mapIndex_other (m : List (String × α)) (k k2 : String) (d : α)
    (hne : k2 ≠ k) :
    mapFind ((mapIndex m k d).2) k2 = mapFind m k2 := by
  induction m with
  | nil =>
      have h2 : k ≠ k2 := Ne.symm hne
      simp [mapIndex, mapFind, h2]
  | cons p rest ih =>
      obtain ⟨k1, w⟩ := p
      have h1 : k ≠ k2 := Ne.symm hne
      by_cases hk : k1 = k
      · simp [mapIndex, hk]
      · by_cases h2 : k1 = k2
        · simp [mapIndex, mapFind, hk, h2, h1, hne]
        · simp [mapIndex, mapFind, hk, h2, ih]

theorem mapFind_append_other (m : List (String × α)) (k k2 : String) (d : α)
    (hne : k2 ≠ k) :
    mapFind (m ++ [(k, d)]) k2 = mapFind m k2 := by
  induction m with
  | nil =>
      have h2 : k ≠ k2 := Ne.symm hne
      simp [mapFind, h2]
  | cons p rest ih =>
      obtain ⟨k1, w⟩ := p
      by_cases h2 : k1 = k2
      · simp [mapFind, h2]
      · simp [mapFind, h2, ih]

theorem mapInsert_idem (m : List (String × α)) (k : String) (v : α) :
    mapInsert (mapInsert m k v) k v = mapInsert m k v := by
  induction m with
  | nil => simp [mapInsert]
  | cons p rest ih =>
      obtain ⟨k1, w⟩ := p
      by_cases hk : k1 = k
      · simp [mapInsert, hk]
      · simp [mapInsert, hk, ih]

theorem cpp_get_found (m : MemoryContext) (T : Ty) (k : String) (dv : Option CppVal)
    (h1 : mapFind m.types k = some (tyName T))
    (h2 : mapFind m.data k = some dv) :
    m.get T k = (Except.ok dv, m) := by
  simp [MemoryContext.get, mapIndex_found _ _ _ _ h1, mapIndex_found _ _ _ _ h2]

theorem cpp_get_frame (m : MemoryContext) (T : Ty) (k k2 : String) (hne : k2 ≠ k) :
    mapFind ((m.get T k).2).types k2 = mapFind m.types k2
      ∧ mapFind ((m.get T k).2).data k2 = mapFind m.data k2 := by
  rcases hty : mapFind m.types k with _ | v
  · have hidx := mapIndex_not_found m.types k "" hty
    have hv : ("" : String) ≠ tyName T := fun hh => tyName_ne_empty T hh.symm
    simp [MemoryContext.get, hidx, hv, mapFind_append_other m.types k k2 "" hne]
  · have hidx := mapIndex_found m.types k "" v hty
    by_cases hv : v = tyName T
    · rcases hda : mapFind m.data k with _ | w
      · have hidx2 := mapIndex_not_found m.data k none hda
        simp [MemoryContext.get, hidx, hidx2, hv,
          mapFind_append_other m.data k k2 none hne]
      · have hidx2 := mapIndex_found m.data k none w hda
        simp [MemoryContext.get, hidx, hidx2, hv]
    · simp [MemoryContext.get, hidx, hv]

theorem cpp_get_store_self (m : MemoryContext) (k : String) (v : CppVal) :
    (m.store k v).get (valTy v) k = (Except.ok (some v), m.store k v) := by
  have h1 : mapFind (m.store k v).types k = some (tyName (valTy v)) :=
    mapFind_insert_self m.types k (tyName (valTy v))
  have h2 : mapFind (m.store k v).data k = some (some v) :=
    mapFind_insert_self m.data k (some v)
  exact cpp_get_found (m.store k v) (valTy v) k (some v) h1 h2

theorem cpp_store_idem (m : MemoryContext) (k : String) (v : CppVal) :
    (m.store k v).store k v = m.store k v := by
  simp [MemoryContext.store, mapInsert_idem]

theorem cpp_calc_exec_frame (m : MemoryContext) (o : CppExec) (k : String)
    (hk1 : k ≠ "input_triangle") (hk2 : k ≠ "rules_set")
    (h : CalculateAnglesAgent_execute m = some o) :
    mapFind (CppExec.state o).types k = mapFind m.types k
      ∧ mapFind (CppExec.state o).data k = mapFind m.data k := by
  unfold CalculateAnglesAgent_execute at h
  split at h
  case h_1 res mA heq =>
      have f1 := cpp_get_frame m Ty.tTriangle "input_triangle" k hk1
      rw [heq] at f1
      cases h
      exact f1
  case h_2 p mA heq =>
      have f1 := cpp_get_frame m Ty.tTriangle "input_triangle" k hk1
      rw [heq] at f1
      split at h
      case h_1 res mB heq2 =>
          have f2 := cpp_get_frame mA Ty.tRules "rules_set" k hk2
          rw [heq2] at f2
          cases h
          exact ⟨f2.1.trans f1.1, f2.2.trans f1.2⟩
      case h_2 pr mB heq2 =>
          have f2 := cpp_get_frame mA Ty.tRules "rules_set" k hk2
          rw [heq2] at f2
          split at h
          case h_1 t =>
              split at h
              case h_1 tf hca =>
                  cases h
                  refine ⟨f2.1.trans f1.1, ?_⟩
                  have h3 : mapFind
                      ((mB.updateData "input_triangle" (CppVal.tri tf)).data) k
                        = mapFind mB.data k :=
                    mapFind_insert_other mB.data "input_triangle" k
                      (some (CppVal.tri tf)) hk1
                  exact h3.trans (f2.2.trans f1.2)
              case h_2 hca =>
                  cases h
                  exact ⟨f2.1.trans f1.1, f2.2.trans f1.2⟩
          case h_2 hp =>
              cases h

theorem cpp_calc_ret_inv (m m2 : MemoryContext) (t : Triangle) (r : sc_result)
    (h1 : mapFind m.types "input_triangle" = some (tyName Ty.tTriangle))
    (h2 : mapFind m.data "input_triangle" = some (some (CppVal.tri t)))
    (hex : CalculateAnglesAgent_execute m = some (CppExec.ret r m2)) :
    (∃ tf, calcAngles t = some tf ∧ r = sc_result.ok
        ∧ mapFind m2.data "input_triangle" = some (some (CppVal.tri tf)))
      ∨ (calcAngles t = none ∧ r = sc_result.error
          ∧ mapFind m2.data "input_triangle" = some (some (CppVal.tri t))) := by
  unfold CalculateAnglesAgent_execute at hex
  rw [cpp_get_found m Ty.tTriangle "input_triangle" (some (CppVal.tri t)) h1 h2] at hex
  simp only [Option.some.injEq] at hex
  rcases hg2 : m.get Ty.tRules "rules_set" with ⟨res2, mB⟩
  rw [hg2] at hex
  have f2 := cpp_get_frame m Ty.tRules "rules_set" "input_triangle" (by decide)
  rw [hg2] at f2
  cases res2 with
  | error e => cases hex
  | ok pr =>
      cases hca : calcAngles t with
      | some tf =>
          rw [hca] at hex
          simp at hex
          obtain ⟨hr, hm⟩ := hex
          refine Or.inl ⟨tf, rfl, hr.symm, ?_⟩
          rw [← hm]
          exact mapFind_insert_self mB.data "input_triangle" (some (CppVal.tri tf))
      | none =>
          rw [hca] at hex
          simp at hex
          obtain ⟨hr, hm⟩ := hex
          refine Or.inr ⟨rfl, hr.symm, ?_⟩
          rw [← hm]
          exact f2.2.trans h2

theorem cpp_check_ret_inv (m m2 : MemoryContext) (t : Triangle) (r : sc_result)
    (h1 : mapFind m.types "input_triangle" = some (tyName Ty.tTriangle))
    (h2 : mapFind m.data "input_triangle" = some (some (CppVal.tri t)))
    (hex : CheckRightAngleAgent_execute m = some (CppExec.ret r m2)) :
    r = sc_result.ok ∧ mapFind m2.data "input_triangle" = some (some (CppVal.tri t)) := by
  unfold CheckRightAngleAgent_execute at hex
  rw [cpp_get_found m Ty.tTriangle "input_triangle" (some (CppVal.tri t)) h1 h2] at hex
  simp only [Option.some.injEq] at hex
  rcases hg2 : m.get Ty.tRules "rules_set" with ⟨res2, mB⟩
  rw [hg2] at hex
  have f2 := cpp_get_frame m Ty.tRules "rules_set" "input_triangle" (by decide)
  rw [hg2] at f2
  cases res2 with
  | error e => cases hex
  | ok pr =>
      simp at hex
      obtain ⟨hr, hm⟩ := hex
      refine ⟨hr.symm, ?_⟩
      rw [← hm]
      have hs : mapFind
          ((mB.store "is_right_triangle" (CppVal.boolv (checkRight t))).data)
            "input_triangle" = mapFind mB.data "input_triangle" :=
        mapFind_insert_other mB.data "is_right_triangle" "input_triangle"
          (some (CppVal.boolv (checkRight t))) (by decide)
      exact hs.trans (f2.2.trans h2)

theorem cpp_calc_thrown_inv (m m2 : MemoryContext) (t : Triangle)
    (h1 : mapFind m.types "input_triangle" = some (tyName Ty.tTriangle))
    (h2 : mapFind m.data "input_triangle" = some (some (CppVal.tri t)))
    (hex : CalculateAnglesAgent_execute m = some (CppExec.thrown m2)) :
    mapFind m2.data "input_triangle" = some (some (CppVal.tri t)) := by
  unfold CalculateAnglesAgent_execute at hex
  rw [cpp_get_found m Ty.tTriangle "input_triangle" (some (CppVal.tri t)) h1 h2] at hex
  simp only [Option.some.injEq] at hex
  rcases hg2 : m.get Ty.tRules "rules_set" with ⟨res2, mB⟩
  rw [hg2] at hex
  have f2 := cpp_get_frame m Ty.tRules "rules_set" "input_triangle" (by decide)
  rw [hg2] at f2
  cases res2 with
  | error e =>
      simp at hex
      rw [← hex]
      exact f2.2.trans h2
  | ok pr =>
      cases hca : calcAngles t with
      | some tf => rw [hca] at hex; cases hex
      | none => rw [hca] at hex; cases hex

theorem cpp_check_thrown_inv (m m2 : MemoryContext) (t : Triangle)
    (h1 : mapFind m.types "input_triangle" = some (tyName Ty.tTriangle))
    (h2 : mapFind m.data "input_triangle" = some (some (CppVal.tri t)))
    (hex : CheckRightAngleAgent_execute m = some (CppExec.thrown m2)) :
    mapFind m2.data "input_triangle" = some (some (CppVal.tri t)) := by
  unfold CheckRightAngleAgent_execute at hex
  rw [cpp_get_found m Ty.tTriangle "input_triangle" (some (CppVal.tri t)) h1 h2] at hex
  simp only [Option.some.injEq] at hex
  rcases hg2 : m.get Ty.tRules "rules_set" with ⟨res2, mB⟩
  rw [hg2] at hex
  have f2 := cpp_get_frame m Ty.tRules "rules_set" "input_triangle" (by decide)
  rw [hg2] at f2
  cases res2 with
  | error e =>
      simp at hex
      rw [← hex]
      exact f2.2.trans h2
  | ok pr => cases hex

theorem calcAngles_spec (t : Triangle) (hone : unknownCount t = 1) :
    ∃ t2 : Triangle,
      calcAngles t = some t2
        ∧ allKnown t2 = true
        ∧ sumValues t2 = 180
        ∧ (∀ i : Fin 3, (angleAt t i).is_known = false →
            angleAt t2 i = ⟨180 - sumKnown t, true⟩)
        ∧ (∀ i : Fin 3, (angleAt t i).is_known = true → angleAt t2 i = angleAt t i) := by
  obtain ⟨⟨v0, k0⟩, ⟨v1, k1⟩, ⟨v2, k2⟩⟩ := t
  cases k0 <;> cases k1 <;> cases k2 <;> simp [unknownCount] at hone
  · refine ⟨⟨⟨180 - sumKnown ⟨⟨v0, false⟩, ⟨v1, true⟩, ⟨v2, true⟩⟩, true⟩,
      ⟨v1, true⟩, ⟨v2, true⟩⟩, ?_, ?_, ?_, ?_, ?_⟩
    · simp [calcAngles, unknownCount]
    · simp [allKnown]
    · simp [sumValues, sumKnown]
      try ring
    · intro i _
      fin_cases i <;> simp_all [angleAt]
    · intro i hi
      fin_cases i <;> simp_all [angleAt]
  · refine ⟨⟨⟨v0, true⟩, ⟨180 - sumKnown ⟨⟨v0, true⟩, ⟨v1, false⟩, ⟨v2, true⟩⟩, true⟩,
      ⟨v2, true⟩⟩, ?_, ?_, ?_, ?_, ?_⟩
    · simp [calcAngles, unknownCount]
    · simp [allKnown]
    · simp [sumValues, sumKnown]
      try ring
    · intro i _
      fin_cases i <;> simp_all [angleAt]
    · intro i hi
      fin_cases i <;> simp_all [angleAt]
  · refine ⟨⟨⟨v0, true⟩, ⟨v1, true⟩,
      ⟨180 - sumKnown ⟨⟨v0, true⟩, ⟨v1, true⟩, ⟨v2, false⟩⟩, true⟩⟩, ?_, ?_, ?_, ?_, ?_⟩
    · simp [calcAngles, unknownCount]
    · simp [allKnown]
    · simp [sumValues, sumKnown]
      try ring
    · intro i _
      fin_cases i <;> simp_all [angleAt]
    · intro i hi
      fin_cases i <;> simp_all [angleAt]

theorem calcAngles_keeps_known (t tf : Triangle) (hca : calcAngles t = some tf)
    (i : Fin 3) (hi : (angleAt t i).is_known = true) : angleAt tf i = angleAt t i := by
  have hone : unknownCount t = 1 := by
    by_contra hne
    simp [calcAngles, hne] at hca
  obtain ⟨t2, hcx, _, _, _, hkeep⟩ := calcAngles_spec t hone
  rw [hca] at hcx
  cases hcx
  exact hkeep i hi

/-! Claim theorems. -/

/-- C1: for every Triangle with exactly one unknown angle, angle completion —
the C `calculate_angles_agent_execute` on a store holding the Triangle under
the triangle key, and likewise `CalculateAnglesAgent::execute` on a C++ store
holding the Triangle and a rule-set entry as the population contract requires
— sets that angle to 180 minus the sum of the known values, marks it known,
writes the Triangle back and returns success, and the resulting Triangle is
fully known with its three values summing to exactly 180. -/
theorem C1_angle_completion (ctx : SCMem) (t : Triangle)
    (hget : sc_memory_get ctx "input_triangle" "triangle" = Except.ok (CVal.tri t))
    (hone : unknownCount t = 1) :
    ∃ t2 : Triangle,
      calculate_angles_agent_execute ctx
          = some (sc_result.ok, sc_update_data ctx "input_triangle" (CVal.tri t2))
        ∧ sc_memory_get (sc_update_data ctx "input_triangle" (CVal.tri t2))
            "input_triangle" "triangle" = Except.ok (CVal.tri t2)
        ∧ (∀ (m : MemoryContext) (rv : Option CppVal),
            mapFind m.types "input_triangle" = some (tyName Ty.tTriangle) →
            mapFind m.data "input_triangle" = some (some (CppVal.tri t)) →
            mapFind m.types "rules_set" = some (tyName Ty.tRules) →
            mapFind m.data "rules_set" = some rv →
              CalculateAnglesAgent_execute m
                  = some (CppExec.ret sc_result.ok
                      (m.updateData "input_triangle" (CppVal.tri t2)))
                ∧ mapFind (m.updateData "input_triangle" (CppVal.tri t2)).data
                    "input_triangle" = some (some (CppVal.tri t2)))
        ∧ allKnown t2 = true
        ∧ sumValues t2 = 180
        ∧ (∀ i : Fin 3, (angleAt t i).is_known = false →
            angleAt t2 i = ⟨180 - sumKnown t, true⟩)
        ∧ (∀ i : Fin 3, (angleAt t i).is_known = true → angleAt t2 i = angleAt t i) := by
  obtain ⟨t2, hc, hall, hsum, hfill, hkeep⟩ := calcAngles_spec t hone
  refine ⟨t2, ?_, sc_get_update_data ctx _ _ _ _ hget, ?_, hall, hsum, hfill, hkeep⟩
  · simp [calculate_angles_agent_execute, hget, hc]
  · intro m rv h1 h2 h3 h4
    refine ⟨?_, mapFind_insert_self m.data "input_triangle" (some (CppVal.tri t2))⟩
    simp [CalculateAnglesAgent_execute,
      cpp_get_found m Ty.tTriangle "input_triangle" (some (CppVal.tri t)) h1 h2,
      cpp_get_found m Ty.tRules "rules_set" rv h3 h4, hc]

/-- Witness for C1 on the scenario-A stores of both implementations: the
triangle with angles 90 and 45 known and the third unknown satisfies the
hypotheses, and the conclusion follows by the theorem. -/
theorem C1_witness :
    sc_memory_get ctxW "input_triangle" "triangle" = Except.ok (CVal.tri triW)
      ∧ unknownCount triW = 1
      ∧ (∃ t2 : Triangle,
          calculate_angles_agent_execute ctxW
              = some (sc_result.ok, sc_update_data ctxW "input_triangle" (CVal.tri t2))
            ∧ sc_memory_get (sc_update_data ctxW "input_triangle" (CVal.tri t2))
                "input_triangle" "triangle" = Except.ok (CVal.tri t2)
            ∧ (∀ (m : MemoryContext) (rv : Option CppVal),
                mapFind m.types "input_triangle" = some (tyName Ty.tTriangle) →
                mapFind m.data "input_triangle" = some (some (CppVal.tri triW)) →
                mapFind m.types "rules_set" = some (tyName Ty.tRules) →
                mapFind m.data "rules_set" = some rv →
                  CalculateAnglesAgent_execute m
                      = some (CppExec.ret sc_result.ok
                          (m.updateData "input_triangle" (CppVal.tri t2)))
                    ∧ mapFind (m.updateData "input_triangle" (CppVal.tri t2)).data
                        "input_triangle" = some (some (CppVal.tri t2)))
            ∧ allKnown t2 = true
            ∧ sumValues t2 = 180
            ∧ (∀ i : Fin 3, (angleAt triW i).is_known = false →
                angleAt t2 i = ⟨180 - sumKnown triW, true⟩)
            ∧ (∀ i : Fin 3, (angleAt triW i).is_known = true →
                angleAt t2 i = angleAt triW i))
      ∧ ∃ t2 : Triangle,
          CalculateAnglesAgent_execute cppW
            = some (CppExec.ret sc_result.ok
                (cppW.updateData "input_triangle" (CppVal.tri t2))) := by
  refine ⟨rfl, rfl, C1_angle_completion ctxW triW rfl rfl, ?_⟩
  obtain ⟨t2, _, _, hcpp, _, _, _, _⟩ := C1_angle_completion ctxW triW rfl rfl
  exact ⟨t2, (hcpp cppW (some rulesW) rfl rfl rfl rfl).1⟩

/-- C2: right-angle classification always succeeds when the store holds what
the population contract requires — for the C `check_right_angle_agent_execute`
a Triangle at the triangle key, for `CheckRightAngleAgent::execute` also the
rule-set entry its extra `get` touches: it stores, under the classification
key, the boolean (an int in C, a bool in C++) that is true exactly when some
angle marked known lies strictly within 0.001 of 90, unknown angles never
matching. -/
theorem C2_right_angle_classification (ctx : SCMem) (t : Triangle)
    (hget : sc_memory_get ctx "input_triangle" "triangle" = Except.ok (CVal.tri t)) :
    check_right_angle_agent_execute ctx
        = some (sc_result.ok,
            sc_memory_store ctx "is_right_triangle"
              (CVal.intv (if checkRight t then 1 else 0)) "int")
      ∧ sc_memory_get
          (sc_memory_store ctx "is_right_triangle"
            (CVal.intv (if checkRight t then 1 else 0)) "int")
          "is_right_triangle" "int"
          = Except.ok (CVal.intv (if checkRight t then 1 else 0))
      ∧ (checkRight t = true
          ↔ ∃ i : Fin 3, (angleAt t i).is_known = true
              ∧ |(angleAt t i).value - 90| < 1 / 1000)
      ∧ (∀ (m : MemoryContext) (rv : Option CppVal),
          mapFind m.types "input_triangle" = some (tyName Ty.tTriangle) →
          mapFind m.data "input_triangle" = some (some (CppVal.tri t)) →
          mapFind m.types "rules_set" = some (tyName Ty.tRules) →
          mapFind m.data "rules_set" = some rv →
            CheckRightAngleAgent_execute m
                = some (CppExec.ret sc_result.ok
                    (m.store "is_right_triangle" (CppVal.boolv (checkRight t))))
              ∧ ((m.store "is_right_triangle" (CppVal.boolv (checkRight t))).get
                  Ty.tBool "is_right_triangle").1
                  = Except.ok (some (CppVal.boolv (checkRight t)))) := by
  refine ⟨by simp [check_right_angle_agent_execute, hget], sc_get_store_self ctx _ _ _,
    ?_, ?_⟩
  · obtain ⟨⟨v0, k0⟩, ⟨v1, k1⟩, ⟨v2, k2⟩⟩ := t
    constructor
    · intro h
      simp [checkRight, isNear90] at h
      rcases h with (⟨hk, hv⟩ | ⟨hk, hv⟩) | ⟨hk, hv⟩
      · exact ⟨0, by simp [angleAt, hk], by simpa [angleAt] using hv⟩
      · exact ⟨1, by simp [angleAt, hk], by simpa [angleAt] using hv⟩
      · exact ⟨2, by simp [angleAt, hk], by simpa [angleAt] using hv⟩
    · rintro ⟨i, hk, hv⟩
      fin_cases i <;> simp_all [checkRight, isNear90, angleAt]
  · intro m rv h1 h2 h3 h4
    constructor
    · simp [CheckRightAngleAgent_execute,
        cpp_get_found m Ty.tTriangle "input_triangle" (some (CppVal.tri t)) h1 h2,
        cpp_get_found m Ty.tRules "rules_set" rv h3 h4]
    · have h5 := cpp_get_store_self m "is_right_triangle" (CppVal.boolv (checkRight t))
      rw [show Ty.tBool = valTy (CppVal.boolv (checkRight t)) from rfl, h5]

/-- Witness for C2 on the scenario-A store after no completion: the fully
known fixture triangle satisfies the hypothesis, and the conclusion follows
by the theorem. -/
theorem C2_witness :
    sc_memory_get ctxFull "input_triangle" "triangle" = Except.ok (CVal.tri triFull)
      ∧ (check_right_angle_agent_execute ctxFull
            = some (sc_result.ok,
                sc_memory_store ctxFull "is_right_triangle"
                  (CVal.intv (if checkRight triFull then 1 else 0)) "int")
          ∧ sc_memory_get
              (sc_memory_store ctxFull "is_right_triangle"
                (CVal.intv (if checkRight triFull then 1 else 0)) "int")
              "is_right_triangle" "int"
              = Except.ok (CVal.intv (if checkRight triFull then 1 else 0))
          ∧ (checkRight triFull = true
              ↔ ∃ i : Fin 3, (angleAt triFull i).is_known = true
                  ∧ |(angleAt triFull i).value - 90| < 1 / 1000)
          ∧ (∀ (m : MemoryContext) (rv : Option CppVal),
              mapFind m.types "input_triangle" = some (tyName Ty.tTriangle) →
              mapFind m.data "input_triangle" = some (some (CppVal.tri triFull)) →
              mapFind m.types "rules_set" = some (tyName Ty.tRules) →
              mapFind m.data "rules_set" = some rv →
                CheckRightAngleAgent_execute m
                    = some (CppExec.ret sc_result.ok
                        (m.store "is_right_triangle" (CppVal.boolv (checkRight triFull))))
                  ∧ ((m.store "is_right_triangle"
                      (CppVal.boolv (checkRight triFull))).get
                      Ty.tBool "is_right_triangle").1
                      = Except.ok (some (CppVal.boolv (checkRight triFull)))))
      ∧ CheckRightAngleAgent_execute cppFull
          = some (CppExec.ret sc_result.ok
              (cppFull.store "is_right_triangle" (CppVal.boolv (checkRight triFull)))) :=
  ⟨rfl, C2_right_angle_classification ctxFull triFull rfl,
    ((C2_right_angle_classification ctxFull triFull rfl).2.2.2 cppFull
      (some rulesW) rfl rfl rfl rfl).1⟩

/-- C5: on a Triangle with zero unknown angles or with two or more unknown
angles, angle completion — the C agent on a store holding the Triangle, and
the C++ agent on a store holding the Triangle and the rule-set entry as the
population contract requires — returns failure and leaves the store exactly
as it was, so neither the angles nor any store key (in particular the
classification key) is written. -/
theorem C5_completion_failure_no_mutation (ctx : SCMem) (t : Triangle)
    (hget : sc_memory_get ctx "input_triangle" "triangle" = Except.ok (CVal.tri t))
    (hcnt : unknownCount t = 0 ∨ 2 ≤ unknownCount t) :
    calculate_angles_agent_execute ctx = some (sc_result.error, ctx)
      ∧ (∀ (m : MemoryContext) (rv : Option CppVal),
          mapFind m.types "input_triangle" = some (tyName Ty.tTriangle) →
          mapFind m.data "input_triangle" = some (some (CppVal.tri t)) →
          mapFind m.types "rules_set" = some (tyName Ty.tRules) →
          mapFind m.data "rules_set" = some rv →
            CalculateAnglesAgent_execute m = some (CppExec.ret sc_result.error m)) := by
  have hne : unknownCount t ≠ 1 := by omega
  constructor
  · simp [calculate_angles_agent_execute, hget, calcAngles, hne]
  · intro m rv h1 h2 h3 h4
    simp [CalculateAnglesAgent_execute,
      cpp_get_found m Ty.tTriangle "input_triangle" (some (CppVal.tri t)) h1 h2,
      cpp_get_found m Ty.tRules "rules_set" rv h3 h4, calcAngles, hne]

/-- Witness for C5 on stores holding a fully known triangle: zero unknown
angles, and the step fails returning each store unchanged. -/
theorem C5_witness :
    sc_memory_get ctxFull "input_triangle" "triangle" = Except.ok (CVal.tri triFull)
      ∧ (unknownCount triFull = 0 ∨ 2 ≤ unknownCount triFull)
      ∧ (calculate_angles_agent_execute ctxFull = some (sc_result.error, ctxFull)
          ∧ (∀ (m : MemoryContext) (rv : Option CppVal),
              mapFind m.types "input_triangle" = some (tyName Ty.tTriangle) →
              mapFind m.data "input_triangle" = some (some (CppVal.tri triFull)) →
              mapFind m.types "rules_set" = some (tyName Ty.tRules) →
              mapFind m.data "rules_set" = some rv →
                CalculateAnglesAgent_execute m = some (CppExec.ret sc_result.error m)))
      ∧ CalculateAnglesAgent_execute cppFull = some (CppExec.ret sc_result.error cppFull) :=
  ⟨rfl, Or.inl rfl, C5_completion_failure_no_mutation ctxFull triFull rfl (Or.inl rfl),
    (C5_completion_failure_no_mutation ctxFull triFull rfl (Or.inl rfl)).2 cppFull
      (some rulesW) rfl rfl rfl rfl⟩

/-- C6: whenever angle completion fails, the pipeline propagates the failure
to its caller without invoking classification.  In C the failing run left the
store unchanged and the pipeline returns that same unchanged store.  In C++
the failure surfaced to the caller is the returned Error or the propagated
exception of `CalculateAnglesAgent::execute`; either way
`TriangleProcessingAgent::execute` forwards it without running
classification, and the classification key is untouched in both the type map
and the data map. -/
theorem C6_pipeline_aborts_on_completion_failure (ctx c : SCMem)
    (h : calculate_angles_agent_execute ctx = some (sc_result.error, c)) :
    (c = ctx ∧ triangle_processing_agent_execute ctx = some (sc_result.error, ctx))
      ∧ (∀ (m m1 : MemoryContext),
          CalculateAnglesAgent_execute m = some (CppExec.ret sc_result.error m1) →
            TriangleProcessingAgent_execute m = some (CppExec.ret sc_result.error m1)
              ∧ mapFind m1.types "is_right_triangle" = mapFind m.types "is_right_triangle"
              ∧ mapFind m1.data "is_right_triangle" = mapFind m.data "is_right_triangle")
      ∧ (∀ (m m1 : MemoryContext),
          CalculateAnglesAgent_execute m = some (CppExec.thrown m1) →
            TriangleProcessingAgent_execute m = some (CppExec.thrown m1)
              ∧ mapFind m1.types "is_right_triangle" = mapFind m.types "is_right_triangle"
              ∧ mapFind m1.data "is_right_triangle" = mapFind m.data "is_right_triangle") := by
  refine ⟨?_, ?_, ?_⟩
  case refine_2 =>
    intro m m1 hcalc
    have hf := cpp_calc_exec_frame m (CppExec.ret sc_result.error m1) "is_right_triangle"
      (by decide) (by decide) hcalc
    exact ⟨by simp [TriangleProcessingAgent_execute, hcalc], hf.1, hf.2⟩
  case refine_3 =>
    intro m m1 hcalc
    have hf := cpp_calc_exec_frame m (CppExec.thrown m1) "is_right_triangle"
      (by decide) (by decide) hcalc
    exact ⟨by simp [TriangleProcessingAgent_execute, hcalc], hf.1, hf.2⟩
  have hc : c = ctx := by
    unfold calculate_angles_agent_execute at h
    cases hg : sc_memory_get ctx "input_triangle" "triangle" with
    | error e => rw [hg] at h; simp at h
    | ok v =>
        rw [hg] at h
        cases v with
        | tri t =>
            simp only [Option.some.injEq] at h
            cases hca : calcAngles t with
            | none =>
                rw [hca] at h
                simp at h
                exact h.symm
            | some t2 =>
                rw [hca] at h
                simp at h
        | intv n => simp at h
        | rules => simp at h
  refine ⟨hc, ?_⟩
  simp [triangle_processing_agent_execute, h, hc]

/-- Witness for C6 on a store holding a fully known triangle, on which angle
completion fails with the store unchanged. -/
theorem C6_witness :
    calculate_angles_agent_execute ctxFull = some (sc_result.error, ctxFull)
      ∧ ((ctxFull = ctxFull
            ∧ triangle_processing_agent_execute ctxFull = some (sc_result.error, ctxFull))
          ∧ (∀ (m m1 : MemoryContext),
              CalculateAnglesAgent_execute m = some (CppExec.ret sc_result.error m1) →
                TriangleProcessingAgent_execute m = some (CppExec.ret sc_result.error m1)
                  ∧ mapFind m1.types "is_right_triangle"
                      = mapFind m.types "is_right_triangle"
                  ∧ mapFind m1.data "is_right_triangle"
                      = mapFind m.data "is_right_triangle")
          ∧ (∀ (m m1 : MemoryContext),
              CalculateAnglesAgent_execute m = some (CppExec.thrown m1) →
                TriangleProcessingAgent_execute m = some (CppExec.thrown m1)
                  ∧ mapFind m1.types "is_right_triangle"
                      = mapFind m.types "is_right_triangle"
                  ∧ mapFind m1.data "is_right_triangle"
                      = mapFind m.data "is_right_triangle"))
      ∧ TriangleProcessingAgent_execute cppNoRules
          = some (CppExec.thrown cppNoRulesThrown) :=
  ⟨rfl, C6_pipeline_aborts_on_completion_failure ctxFull ctxFull rfl,
    (((C6_pipeline_aborts_on_completion_failure ctxFull ctxFull rfl).2.2)
      cppNoRules cppNoRulesThrown rfl).1⟩

/-- C7: known angles are immutable: across any execution of angle completion
or right-angle classification — the C agents on a store holding a Triangle,
and every returning execution of the C++ agents on a store holding that
Triangle — every angle marked known beforehand is unchanged (same value,
still known) in the Triangle read back afterwards. -/
theorem C7_known_angles_immutable (ctx : SCMem) (t : Triangle)
    (hget : sc_memory_get ctx "input_triangle" "triangle" = Except.ok (CVal.tri t)) :
    (∀ r ctx2 t2, calculate_angles_agent_execute ctx = some (r, ctx2) →
        sc_memory_get ctx2 "input_triangle" "triangle" = Except.ok (CVal.tri t2) →
        ∀ i : Fin 3, (angleAt t i).is_known = true → angleAt t2 i = angleAt t i)
      ∧ (∀ r ctx2 t2, check_right_angle_agent_execute ctx = some (r, ctx2) →
        sc_memory_get ctx2 "input_triangle" "triangle" = Except.ok (CVal.tri t2) →
        ∀ i : Fin 3, (angleAt t i).is_known = true → angleAt t2 i = angleAt t i)
      ∧ (∀ (m : MemoryContext),
          mapFind m.types "input_triangle" = some (tyName Ty.tTriangle) →
          mapFind m.data "input_triangle" = some (some (CppVal.tri t)) →
            (∀ r m2 t2, CalculateAnglesAgent_execute m = some (CppExec.ret r m2) →
                mapFind m2.data "input_triangle" = some (some (CppVal.tri t2)) →
                ∀ i : Fin 3, (angleAt t i).is_known = true → angleAt t2 i = angleAt t i)
              ∧ (∀ r m2 t2, CheckRightAngleAgent_execute m = some (CppExec.ret r m2) →
                mapFind m2.data "input_triangle" = some (some (CppVal.tri t2)) →
                ∀ i : Fin 3, (angleAt t i).is_known = true → angleAt t2 i = angleAt t i)
              ∧ (∀ m2, CalculateAnglesAgent_execute m = some (CppExec.thrown m2) →
                mapFind m2.data "input_triangle" = some (some (CppVal.tri t)))
              ∧ (∀ m2, CheckRightAngleAgent_execute m = some (CppExec.thrown m2) →
                mapFind m2.data "input_triangle" = some (some (CppVal.tri t)))) := by
  refine ⟨?_, ?_, ?_⟩
  case refine_3 =>
    intro m h1 h2
    refine ⟨?_, ?_, fun m2 hex => cpp_calc_thrown_inv m m2 t h1 h2 hex,
      fun m2 hex => cpp_check_thrown_inv m m2 t h1 h2 hex⟩
    · intro r m2 t2 hex hfind i hi
      rcases cpp_calc_ret_inv m m2 t r h1 h2 hex with ⟨tf, hca, _, hf⟩ | ⟨_, _, hf⟩
      · rw [hf] at hfind
        simp at hfind
        obtain rfl := hfind
        exact calcAngles_keeps_known t tf hca i hi
      · rw [hf] at hfind
        simp at hfind
        obtain rfl := hfind
        rfl
    · intro r m2 t2 hex hfind i hi
      obtain ⟨_, hf⟩ := cpp_check_ret_inv m m2 t r h1 h2 hex
      rw [hf] at hfind
      simp at hfind
      obtain rfl := hfind
      rfl
  · intro r ctx2 t2 hex hget2 i hi
    unfold calculate_angles_agent_execute at hex
    rw [hget] at hex
    simp only [Option.some.injEq] at hex
    cases hca : calcAngles t with
    | none =>
        rw [hca] at hex
        simp at hex
        obtain ⟨hr, hctx⟩ := hex
        rw [← hctx, hget] at hget2
        simp at hget2
        obtain rfl := hget2
        rfl
    | some tf =>
        rw [hca] at hex
        simp at hex
        obtain ⟨hr, hctx⟩ := hex
        rw [← hctx,
          sc_get_update_data ctx "input_triangle" "triangle" (CVal.tri t) (CVal.tri tf) hget]
          at hget2
        simp at hget2
        obtain rfl := hget2
        exact calcAngles_keeps_known t tf hca i hi
  · intro r ctx2 t2 hex hget2 i hi
    unfold check_right_angle_agent_execute at hex
    rw [hget] at hex
    simp at hex
    obtain ⟨hr, hctx⟩ := hex
    rw [← hctx,
      sc_get_store_other ctx "input_triangle" "is_right_triangle" "triangle" "int" _
        (by decide), hget] at hget2
    simp at hget2
    obtain rfl := hget2
    rfl

/-- Witness for C7 on the scenario-A store. -/
theorem C7_witness :
    sc_memory_get ctxW "input_triangle" "triangle" = Except.ok (CVal.tri triW)
      ∧ ((∀ r ctx2 t2, calculate_angles_agent_execute ctxW = some (r, ctx2) →
            sc_memory_get ctx2 "input_triangle" "triangle" = Except.ok (CVal.tri t2) →
            ∀ i : Fin 3, (angleAt triW i).is_known = true → angleAt t2 i = angleAt triW i)
          ∧ (∀ r ctx2 t2, check_right_angle_agent_execute ctxW = some (r, ctx2) →
            sc_memory_get ctx2 "input_triangle" "triangle" = Except.ok (CVal.tri t2) →
            ∀ i : Fin 3, (angleAt triW i).is_known = true → angleAt t2 i = angleAt triW i)
          ∧ (∀ (m : MemoryContext),
              mapFind m.types "input_triangle" = some (tyName Ty.tTriangle) →
              mapFind m.data "input_triangle" = some (some (CppVal.tri triW)) →
                (∀ r m2 t2, CalculateAnglesAgent_execute m = some (CppExec.ret r m2) →
                    mapFind m2.data "input_triangle" = some (some (CppVal.tri t2)) →
                    ∀ i : Fin 3, (angleAt triW i).is_known = true →
                      angleAt t2 i = angleAt triW i)
                  ∧ (∀ r m2 t2, CheckRightAngleAgent_execute m = some (CppExec.ret r m2) →
                    mapFind m2.data "input_triangle" = some (some (CppVal.tri t2)) →
                    ∀ i : Fin 3, (angleAt triW i).is_known = true →
                      angleAt t2 i = angleAt triW i)
                  ∧ (∀ m2, CalculateAnglesAgent_execute m = some (CppExec.thrown m2) →
                    mapFind m2.data "input_triangle" = some (some (CppVal.tri triW)))
                  ∧ (∀ m2, CheckRightAngleAgent_execute m = some (CppExec.thrown m2) →
                    mapFind m2.data "input_triangle" = some (some (CppVal.tri triW))))) :=
  ⟨rfl, C7_known_angles_immutable ctxW triW rfl⟩

/-- C8: right-angle classification is idempotent in both implementations: any
run of the C agent returns success, and re-running it on the store it
produced returns success again leaving that store exactly as it was; the C++
agent on a store populated per the contract likewise returns success with the
classification stored, and a second run returns success with the store
unchanged, the same boolean sitting under the classification key. -/
theorem C8_classification_idempotent (ctx ctx1 : SCMem) (r : sc_result)
    (h : check_right_angle_agent_execute ctx = some (r, ctx1)) :
    (r = sc_result.ok ∧ check_right_angle_agent_execute ctx1 = some (sc_result.ok, ctx1))
      ∧ (∀ (m : MemoryContext) (t : Triangle) (rv : Option CppVal),
          mapFind m.types "input_triangle" = some (tyName Ty.tTriangle) →
          mapFind m.data "input_triangle" = some (some (CppVal.tri t)) →
          mapFind m.types "rules_set" = some (tyName Ty.tRules) →
          mapFind m.data "rules_set" = some rv →
            CheckRightAngleAgent_execute m
                = some (CppExec.ret sc_result.ok
                    (m.store "is_right_triangle" (CppVal.boolv (checkRight t))))
              ∧ CheckRightAngleAgent_execute
                  (m.store "is_right_triangle" (CppVal.boolv (checkRight t)))
                  = some (CppExec.ret sc_result.ok
                      (m.store "is_right_triangle" (CppVal.boolv (checkRight t))))) := by
  refine ⟨?_, ?_⟩
  case refine_2 =>
    intro m t rv h1 h2 h3 h4
    have h1b : mapFind
        ((m.store "is_right_triangle" (CppVal.boolv (checkRight t))).types)
          "input_triangle" = some (tyName Ty.tTriangle) :=
      (mapFind_insert_other m.types "is_right_triangle" "input_triangle"
        (tyName (valTy (CppVal.boolv (checkRight t)))) (by decide)).trans h1
    have h2b : mapFind
        ((m.store "is_right_triangle" (CppVal.boolv (checkRight t))).data)
          "input_triangle" = some (some (CppVal.tri t)) :=
      (mapFind_insert_other m.data "is_right_triangle" "input_triangle"
        (some (CppVal.boolv (checkRight t))) (by decide)).trans h2
    have h3b : mapFind
        ((m.store "is_right_triangle" (CppVal.boolv (checkRight t))).types)
          "rules_set" = some (tyName Ty.tRules) :=
      (mapFind_insert_other m.types "is_right_triangle" "rules_set"
        (tyName (valTy (CppVal.boolv (checkRight t)))) (by decide)).trans h3
    have h4b : mapFind
        ((m.store "is_right_triangle" (CppVal.boolv (checkRight t))).data)
          "rules_set" = some rv :=
      (mapFind_insert_other m.data "is_right_triangle" "rules_set"
        (some (CppVal.boolv (checkRight t))) (by decide)).trans h4
    constructor
    · simp [CheckRightAngleAgent_execute,
        cpp_get_found m Ty.tTriangle "input_triangle" (some (CppVal.tri t)) h1 h2,
        cpp_get_found m Ty.tRules "rules_set" rv h3 h4]
    · have e1 : CheckRightAngleAgent_execute
          (m.store "is_right_triangle" (CppVal.boolv (checkRight t)))
            = some (CppExec.ret sc_result.ok
                ((m.store "is_right_triangle" (CppVal.boolv (checkRight t))).store
                  "is_right_triangle" (CppVal.boolv (checkRight t)))) := by
        simp [CheckRightAngleAgent_execute,
          cpp_get_found _ Ty.tTriangle "input_triangle" (some (CppVal.tri t)) h1b h2b,
          cpp_get_found _ Ty.tRules "rules_set" rv h3b h4b]
      rw [e1, cpp_store_idem]
  unfold check_right_angle_agent_execute at h
  cases hg : sc_memory_get ctx "input_triangle" "triangle" with
  | error e => rw [hg] at h; simp at h
  | ok v =>
      rw [hg] at h
      cases v with
      | intv n => simp at h
      | rules => simp at h
      | tri t =>
          simp at h
          obtain ⟨hr, hctx⟩ := h
          refine ⟨hr.symm, ?_⟩
          have hg1 : sc_memory_get ctx1 "input_triangle" "triangle"
              = Except.ok (CVal.tri t) := by
            rw [← hctx,
              sc_get_store_other ctx "input_triangle" "is_right_triangle" "triangle" "int" _
                (by decide), hg]
          simp [check_right_angle_agent_execute, hg1]
          rw [← hctx]
          exact sc_store_idem ctx "is_right_triangle" "int"
            (CVal.intv (if checkRight t then 1 else 0))

/-- Witness for C8 on the all-unknown store, whose classification stores the
boolean false. -/
theorem C8_witness :
    check_right_angle_agent_execute ctxU = some (sc_result.ok, ctxU1)
      ∧ ((sc_result.ok = sc_result.ok
            ∧ check_right_angle_agent_execute ctxU1 = some (sc_result.ok, ctxU1))
          ∧ (∀ (m : MemoryContext) (t : Triangle) (rv : Option CppVal),
              mapFind m.types "input_triangle" = some (tyName Ty.tTriangle) →
              mapFind m.data "input_triangle" = some (some (CppVal.tri t)) →
              mapFind m.types "rules_set" = some (tyName Ty.tRules) →
              mapFind m.data "rules_set" = some rv →
                CheckRightAngleAgent_execute m
                    = some (CppExec.ret sc_result.ok
                        (m.store "is_right_triangle" (CppVal.boolv (checkRight t))))
                  ∧ CheckRightAngleAgent_execute
                      (m.store "is_right_triangle" (CppVal.boolv (checkRight t)))
                      = some (CppExec.ret sc_result.ok
                          (m.store "is_right_triangle"
                            (CppVal.boolv (checkRight t))))))
      ∧ CheckRightAngleAgent_execute cppU
          = some (CppExec.ret sc_result.ok
              (cppU.store "is_right_triangle" (CppVal.boolv (checkRight triU)))) :=
  ⟨rfl, C8_classification_idempotent ctxU ctxU1 sc_result.ok rfl,
    ((C8_classification_idempotent ctxU ctxU1 sc_result.ok rfl).2 cppU triU
      (some rulesW) rfl rfl rfl rfl).1⟩

/-- C9: end-to-end scenario C in both implementations: on the Triangle with
two known 90-degree angles and one unknown angle, each pipeline — the C one
on a store holding the Triangle, the C++ one on a store populated the way the
C++ main populates it, Triangle and rule set — completes the missing angle to
0 by the 180-minus-sum formula without any geometric-plausibility validation,
stores the true classification, and returns success. -/
theorem C9_scenario_c :
    triangle_processing_agent_execute ctx9
      = some (sc_result.ok,
          [⟨"input_triangle", CVal.tri ⟨⟨90, true⟩, ⟨90, true⟩, ⟨0, true⟩⟩, "triangle"⟩,
           ⟨"is_right_triangle", CVal.intv 1, "int"⟩])
      ∧ TriangleProcessingAgent_execute cpp9
          = some (CppExec.ret sc_result.ok
              ⟨[("input_triangle", some (CppVal.tri ⟨⟨90, true⟩, ⟨90, true⟩, ⟨0, true⟩⟩)),
                ("rules_set", some rulesW),
                ("is_right_triangle", some (CppVal.boolv true))],
               [("input_triangle", tyName Ty.tTriangle),
                ("rules_set", tyName Ty.tRules),
                ("is_right_triangle", tyName Ty.tBool)]⟩) := by
  constructor
  · norm_num [ctx9, tri9, triangle_processing_agent_execute, calculate_angles_agent_execute,
      check_right_angle_agent_execute, sc_memory_get, sc_memory_store, sc_update_data,
      calcAngles, unknownCount, sumKnown, checkRight, isNear90]
    decide
  · have hca : calcAngles tri9 = some ⟨⟨90, true⟩, ⟨90, true⟩, ⟨0, true⟩⟩ := by
      norm_num [calcAngles, unknownCount, sumKnown, tri9]
    have hcr : checkRight ⟨⟨90, true⟩, ⟨90, true⟩, ⟨0, true⟩⟩ = true := by
      norm_num [checkRight, isNear90]
    have s1 : CalculateAnglesAgent_execute cpp9
        = some (CppExec.ret sc_result.ok
            (cpp9.updateData "input_triangle"
              (CppVal.tri ⟨⟨90, true⟩, ⟨90, true⟩, ⟨0, true⟩⟩))) := by
      simp [CalculateAnglesAgent_execute,
        cpp_get_found cpp9 Ty.tTriangle "input_triangle" (some (CppVal.tri tri9)) rfl rfl,
        cpp_get_found cpp9 Ty.tRules "rules_set" (some rulesW) rfl rfl, hca]
    have s2 : CheckRightAngleAgent_execute
        (cpp9.updateData "input_triangle"
          (CppVal.tri ⟨⟨90, true⟩, ⟨90, true⟩, ⟨0, true⟩⟩))
        = some (CppExec.ret sc_result.ok
            ((cpp9.updateData "input_triangle"
              (CppVal.tri ⟨⟨90, true⟩, ⟨90, true⟩, ⟨0, true⟩⟩)).store
                "is_right_triangle" (CppVal.boolv true))) := by
      simp [CheckRightAngleAgent_execute,
        cpp_get_found
          (cpp9.updateData "input_triangle"
            (CppVal.tri ⟨⟨90, true⟩, ⟨90, true⟩, ⟨0, true⟩⟩))
          Ty.tTriangle "input_triangle"
          (some (CppVal.tri ⟨⟨90, true⟩, ⟨90, true⟩, ⟨0, true⟩⟩)) rfl rfl,
        cpp_get_found
          (cpp9.updateData "input_triangle"
            (CppVal.tri ⟨⟨90, true⟩, ⟨90, true⟩, ⟨0, true⟩⟩))
          Ty.tRules "rules_set" (some rulesW) rfl rfl, hcr]
    have s3 : ((cpp9.updateData "input_triangle"
          (CppVal.tri ⟨⟨90, true⟩, ⟨90, true⟩, ⟨0, true⟩⟩)).store
            "is_right_triangle" (CppVal.boolv true)).get Ty.tBool "is_right_triangle"
        = (Except.ok (some (CppVal.boolv true)),
            (cpp9.updateData "input_triangle"
              (CppVal.tri ⟨⟨90, true⟩, ⟨90, true⟩, ⟨0, true⟩⟩)).store
                "is_right_triangle" (CppVal.boolv true)) :=
      cpp_get_found _ Ty.tBool "is_right_triangle" (some (CppVal.boolv true)) rfl rfl
    simp [TriangleProcessingAgent_execute, s1, s2, s3]
    rfl

/-- C3: store round-trip.  In the C store, retrieving a key with the tag it
was just stored under returns exactly the stored payload, whatever the store
held before (re-storing replaces value and tag of an existing entry).  In the
C++ store, `get` at the type the value was stored at returns the stored
pointer, and the recorded tag is the tag of the new type. -/
theorem C3_roundtrip :
    (∀ (ctx : SCMem) (k ty : String) (v : CVal),
        sc_memory_get (sc_memory_store ctx k v ty) k ty = Except.ok v)
      ∧ (∀ (m : MemoryContext) (k : String) (v : CppVal),
          ((m.store k v).get (valTy v) k).1 = Except.ok (some v))
      ∧ (∀ (m : MemoryContext) (k : String) (v : CppVal),
          mapFind (m.store k v).types k = some (tyName (valTy v))) := by
  refine ⟨fun ctx k ty v => sc_get_store_self ctx k ty v, fun m k v => ?_,
    fun m k v => mapFind_insert_self m.types k (tyName (valTy v))⟩
  have h1 := mapFind_insert_self m.types k (tyName (valTy v))
  have h2 := mapFind_insert_self m.data k (some v)
  simp [MemoryContext.store, MemoryContext.get, mapIndex_found _ _ _ _ h1,
    mapIndex_found _ _ _ _ h2]

/-- C4 counterexample: in the C++ store, a get on an absent key does not fail
with a key-not-found error: on the empty store, where no entry exists at the
key, it reports a type mismatch. -/
theorem C4_counterexample :
    mapFind (MemoryContext.mk [] []).types "input_triangle" = none
      ∧ ((MemoryContext.mk [] []).get Ty.tTriangle "input_triangle").1
          = Except.error StoreError.typeMismatch
      ∧ ((MemoryContext.mk [] []).get Ty.tTriangle "input_triangle").1
          ≠ Except.error StoreError.keyNotFound := by
  refine ⟨rfl, rfl, ?_⟩
  intro h
  simp [MemoryContext.get, mapIndex, tyName] at h

/-- C4 amended: the C `sc_memory_get` satisfies the stated contract — absent
key reports key-not-found (the NULL return), a differing tag on the first
matching entry reports type mismatch (the fatal exit), and success otherwise,
with no other failure mode; the C++ `get`, however, reports a type mismatch
on an absent key as well, because the tag it default-inserts is empty and
differs from the tag of every requested type, so key-not-found never occurs
there. -/
theorem C4_amended_get_contract :
    (∀ (ctx : SCMem) (k ty : String),
        sc_memory_get ctx k ty
          = match sc_lookup ctx k with
            | none => Except.error StoreError.keyNotFound
            | some e =>
                if e.type = ty then Except.ok e.data
                else Except.error StoreError.typeMismatch)
      ∧ (∀ (m : MemoryContext) (T : Ty) (k : String),
          mapFind m.types k = none →
            (m.get T k).1 = Except.error StoreError.typeMismatch) := by
  refine ⟨sc_get_eq_lookup, fun m T k h => ?_⟩
  have hidx := mapIndex_not_found m.types k "" h
  have hne : ("" : String) ≠ tyName T := fun hh => tyName_ne_empty T hh.symm
  simp [MemoryContext.get, hidx, hne]

/-- Witness for C4 amended, on a one-entry C store and the empty C++ store. -/
theorem C4_amended_witness :
    sc_memory_get [] "rules_set" "rules_set" = Except.error StoreError.keyNotFound
      ∧ ((MemoryContext.mk [] []).get Ty.tBool "rules_set").1
          = Except.error StoreError.typeMismatch := by
  constructor
  · rw [C4_amended_get_contract.1 [] "rules_set" "rules_set"]
    rfl
  · exact C4_amended_get_contract.2 (MemoryContext.mk [] []) Ty.tBool "rules_set" rfl

/-- C10: in the C++ store, get on an absent key is not read-only: the
`operator` access on the type map inserts an empty tag for the key before the
lookup fails, so the failed retrieval leaves the key present in the type map
with an empty tag. -/
theorem C10_get_mutates_on_absent_key (m : MemoryContext) (T : Ty) (k : String)
    (h : mapFind m.types k = none) :
    (m.get T k).1 = Except.error StoreError.typeMismatch
      ∧ (m.get T k).2.types = m.types ++ [(k, "")]
      ∧ mapFind ((m.get T k).2).types k = some "" := by
  have hidx := mapIndex_not_found m.types k "" h
  have hne : ("" : String) ≠ tyName T := fun hh => tyName_ne_empty T hh.symm
  refine ⟨?_, ?_, ?_⟩
  · simp [MemoryContext.get, hidx, hne]
  · simp [MemoryContext.get, hidx, hne]
  · simp [MemoryContext.get, hidx, hne]
    exact mapFind_append_self m.types k "" h

/-- Witness for C10 on the empty C++ store and a key never stored. -/
theorem C10_witness :
    mapFind (MemoryContext.mk [] []).types "missing" = none
      ∧ (((MemoryContext.mk [] []).get Ty.tRules "missing").1
            = Except.error StoreError.typeMismatch
          ∧ ((MemoryContext.mk [] []).get Ty.tRules "missing").2.types
              = (MemoryContext.mk [] []).types ++ [("missing", "")]
          ∧ mapFind (((MemoryContext.mk [] []).get Ty.tRules "missing").2).types "missing"
              = some "") :=
  ⟨rfl, C10_get_mutates_on_absent_key (MemoryContext.mk [] []) Ty.tRules "missing" rfl⟩
